import Mathlib

/-!
Shallow embedding of the Dynalinks React Native SDK binding layer
(src/Dynalinks.ts, src/errors.ts, src/types.ts and the native Expo
modules), together with theorems about its error-normalization and
result-normalization contract.

JavaScript values are modelled by the inductive type JSValue; an object
is an association list of key/value pairs looked up first-match, a
missing key reads as undefined, and property access on undefined or
null raises a TypeError, which the embedding surfaces through Except.
-/

/-- A JavaScript value as seen across the native bridge. -/
inductive JSValue where
  | undefined
  | null
  | bool (b : Bool)
  | num (n : Int)
  | str (s : String)
  | obj (fields : List (String × JSValue))

/-- Strict equality of a JavaScript value against a string literal, the
comparison a switch statement performs on its cases: true exactly when
the value is that string. -/
def isStrEq (v : JSValue) (s : String) : Bool :=
  match v with
  | .str t => t == s
  | _ => false

/-- First-match lookup of a key in an object field list; a missing key
reads as undefined, as in JavaScript. -/
def jsLookup : List (String × JSValue) → String → JSValue
  | [], _ => .undefined
  | (k1, v1) :: rest, k => if k1 = k then v1 else jsLookup rest k

/-- Property read on a value that is neither undefined nor null: objects
look the key up, primitives yield undefined. -/
def propOf (v : JSValue) (k : String) : JSValue :=
  match v with
  | .obj fields => jsLookup fields k
  | _ => .undefined

/-- JavaScript truthiness. -/
def truthy : JSValue → Bool
  | .undefined => false
  | .null => false
  | .bool b => b
  | .num n => n != 0
  | .str s => s != ""
  | .obj _ => true

/-- JavaScript logical or: the left value when truthy, the right one
otherwise. -/
def jsOr (a b : JSValue) : JSValue :=
  if truthy a then a else b

/-- Whether an object value carries the given key at all, regardless of
the value stored under it. -/
def hasKey : JSValue → String → Bool
  | .obj fields, k => fields.any (fun p => p.1 == k)
  | _, _ => false

/-!
Error model, from src/errors.ts. A DynalinksError carries a name, a
stable code and a human-readable message. The variant constructors
mirror the error classes; a constructor whose TypeScript parameter has
a default applies that default exactly when the argument is undefined,
and the Error superclass stringifies any other non-string argument.
-/

/-- How the JavaScript Error constructor renders a message argument
that is not undefined. -/
def jsErrorMessage : JSValue → String
  | .undefined => ""
  | .null => "null"
  | .bool b => if b then "true" else "false"
  | .num n => toString n
  | .str s => s
  | .obj _ => "[object Object]"

/-- Typed error of the SDK: a stable code plus a message. -/
structure DynalinksError where
  name : String
  code : String
  message : String
deriving DecidableEq, Repr

/-- SDK has not been configured. -/
def NotConfiguredError : DynalinksError :=
  { name := "NotConfiguredError"
    code := "NOT_CONFIGURED"
    message := "Dynalinks SDK has not been configured. Call Dynalinks.configure() first." }

/-- Invalid API key format; the message parameter defaults when the
argument is undefined. -/
def InvalidApiKeyError (m : JSValue) : DynalinksError :=
  { name := "InvalidApiKeyError"
    code := "INVALID_API_KEY"
    message := match m with
      | .undefined => "Invalid API key format"
      | v => jsErrorMessage v }

/-- Running on simulator or emulator without permission. -/
def SimulatorError : DynalinksError :=
  { name := "SimulatorError"
    code := "SIMULATOR"
    message := "Deferred deep linking is not available on simulator/emulator. Set allowSimulator: true in configuration for testing." }

/-- Network request failed; dynamic message with a default. -/
def NetworkError (m : JSValue) : DynalinksError :=
  { name := "NetworkError"
    code := "NETWORK_ERROR"
    message := match m with
      | .undefined => "Network request failed"
      | v => jsErrorMessage v }

/-- Server returned an error; dynamic message with a default. -/
def ServerError (m : JSValue) : DynalinksError :=
  { name := "ServerError"
    code := "SERVER_ERROR"
    message := match m with
      | .undefined => "Server error"
      | v => jsErrorMessage v }

/-- Invalid response from server. -/
def InvalidResponseError : DynalinksError :=
  { name := "InvalidResponseError"
    code := "INVALID_RESPONSE"
    message := "Received invalid response from server" }

/-- No matching link found. -/
def NoMatchError : DynalinksError :=
  { name := "NoMatchError"
    code := "NO_MATCH"
    message := "No matching link found" }

/-- Install referrer service unavailable, Android only. -/
def InstallReferrerUnavailableError : DynalinksError :=
  { name := "InstallReferrerUnavailableError"
    code := "INSTALL_REFERRER_UNAVAILABLE"
    message := "Install referrer service is unavailable on this device" }

/-- Install referrer service timed out, Android only. -/
def InstallReferrerTimeoutError : DynalinksError :=
  { name := "InstallReferrerTimeoutError"
    code := "INSTALL_REFERRER_TIMEOUT"
    message := "Install referrer service timed out" }

/-- Invalid intent or URL format, Android only; dynamic message with a
default. -/
def InvalidUrlError (m : JSValue) : DynalinksError :=
  { name := "InvalidUrlError"
    code := "INVALID_URL"
    message := match m with
      | .undefined => "Invalid URL format"
      | v => jsErrorMessage v }

/-- Convert a native error code to a DynalinksError: the switch of
fromNativeError in src/errors.ts, each case a strict comparison against
a string literal, with the default branch building the generic UNKNOWN
error whose message falls back to a placeholder when falsy. -/
def fromNativeError (code message : JSValue) : DynalinksError :=
  if isStrEq code "NOT_CONFIGURED" then NotConfiguredError
  else if isStrEq code "INVALID_API_KEY" then InvalidApiKeyError message
  else if isStrEq code "SIMULATOR" then SimulatorError
  else if isStrEq code "NETWORK_ERROR" then NetworkError message
  else if isStrEq code "SERVER_ERROR" then ServerError message
  else if isStrEq code "INVALID_RESPONSE" then InvalidResponseError
  else if isStrEq code "NO_MATCH" then NoMatchError
  else if isStrEq code "INSTALL_REFERRER_UNAVAILABLE" then InstallReferrerUnavailableError
  else if isStrEq code "INSTALL_REFERRER_TIMEOUT" then InstallReferrerTimeoutError
  else if isStrEq code "INVALID_URL" then InvalidUrlError message
  else if isStrEq code "INVALID_INTENT" then InvalidUrlError message
  else
    { name := "DynalinksError"
      code := "UNKNOWN"
      message := if truthy message then jsErrorMessage message else "Unknown error occurred" }

/-!
Configuration model, from src/types.ts, and the facade, from
src/Dynalinks.ts. Optional configuration fields use Option, none
standing for a field the caller left undefined.
-/

/-- Log level for SDK logging, from src/types.ts. -/
inductive DynalinksLogLevel where
  | none
  | error
  | warning
  | info
  | debug
deriving DecidableEq, Repr

/-- The string value of a log level, as the enum members are defined. -/
def DynalinksLogLevel.toNative : DynalinksLogLevel → String
  | .none => "none"
  | .error => "error"
  | .warning => "warning"
  | .info => "info"
  | .debug => "debug"

/-- Configuration options for the SDK, from src/types.ts. -/
structure DynalinksConfig where
  clientAPIKey : String
  baseURL : Option String := Option.none
  logLevel : Option DynalinksLogLevel := Option.none
  allowSimulator : Option Bool := Option.none

/-- The object literal the facade passes to the native configure call:
clientAPIKey forwarded as given, baseURL forwarded as given so an
absent field is forwarded as the key bound to undefined, logLevel and
allowSimulator defaulted through the JavaScript or-operator. Every
enum log level is a non-empty string and hence truthy, so the default
fires exactly when the field is absent. -/
def configureArgument (config : DynalinksConfig) : JSValue :=
  .obj [
    ("clientAPIKey", .str config.clientAPIKey),
    ("baseURL", match config.baseURL with
      | some s => .str s
      | Option.none => .undefined),
    ("logLevel", .str (match config.logLevel with
      | some l => l.toNative
      | Option.none => DynalinksLogLevel.error.toNative)),
    ("allowSimulator", .bool (config.allowSimulator.getD false))]

/-- The sequence of native-bridge invocations the facade configure
performs, each a method name with its argument: the try block performs
exactly one call, unconditionally, with no prior validation. -/
def configureNativeCalls (config : DynalinksConfig) : List (String × JSValue) :=
  [("configure", configureArgument config)]

/-- Parse a native result to a DeepLinkResult, from parseResult in
src/Dynalinks.ts. Reading a property of undefined or null raises a
TypeError, surfaced as the error case; any other value is read with
propOf. The link sub-object is rebuilt field by field, under the fixed
snake-case to camel-case renaming, only when the native link value is
truthy; a truthy value is never undefined or null, so the inner reads
cannot raise. -/
def parseResult (nativeResult : JSValue) (isDeferred : Bool) : Except String JSValue :=
  match nativeResult with
  | .undefined => .error "TypeError: Cannot read properties of undefined"
  | .null => .error "TypeError: Cannot read properties of null"
  | v =>
    let link := propOf v "link"
    .ok (.obj [
      ("matched", jsOr (propOf v "matched") (.bool false)),
      ("confidence", propOf v "confidence"),
      ("matchScore", propOf v "match_score"),
      ("link", if truthy link then
          .obj [
            ("id", propOf link "id"),
            ("name", propOf link "name"),
            ("path", propOf link "path"),
            ("shortenedPath", propOf link "shortened_path"),
            ("url", propOf link "url"),
            ("fullUrl", propOf link "full_url"),
            ("deepLinkValue", propOf link "deep_link_value"),
            ("iosFallbackUrl", propOf link "ios_fallback_url"),
            ("androidFallbackUrl", propOf link "android_fallback_url"),
            ("enableForcedRedirect", propOf link "enable_forced_redirect"),
            ("socialTitle", propOf link "social_title"),
            ("socialDescription", propOf link "social_description"),
            ("socialImageUrl", propOf link "social_image_url"),
            ("clicks", propOf link "clicks")]
        else .undefined),
      ("isDeferred", .bool isDeferred)])

/-- Behaviour of one native-bridge call: it either resolves with a
payload or rejects with an arbitrary JavaScript value. -/
inductive BridgeReply where
  | resolve (value : JSValue)
  | reject (error : JSValue)

/-- Observable outcome of a facade operation: resolution with a value,
rejection with a typed DynalinksError, or a raw exception escaping the
layer unconverted. -/
inductive Outcome where
  | resolved (value : JSValue)
  | typedErr (e : DynalinksError)
  | raw (message : String)

/-- The catch clause shared by the three facade operations: it reads
code and message off the caught value and rethrows through
fromNativeError, substituting UNKNOWN for a falsy code. Reading a
property of a null or undefined caught value itself raises a raw
TypeError that escapes unconverted. -/
def catchClause (e : JSValue) : Outcome :=
  match e with
  | .undefined => .raw "TypeError: Cannot read properties of undefined (reading code)"
  | .null => .raw "TypeError: Cannot read properties of null (reading code)"
  | v => .typedErr (fromNativeError (jsOr (propOf v "code") (.str "UNKNOWN")) (propOf v "message"))

/-- Facade configure, from src/Dynalinks.ts: forwards the built
argument to the bridge and resolves void on success; a rejection goes
through the catch clause. The config parameter shapes only the
forwarded argument, never a local rejection. -/
def configure (_config : DynalinksConfig) (reply : BridgeReply) : Outcome :=
  match reply with
  | .resolve _ => .resolved .undefined
  | .reject e => catchClause e

/-- Facade checkForDeferredDeepLink, from src/Dynalinks.ts: parses a
resolved payload with the deferred flag set to true; an exception
raised while parsing is caught by the same catch clause, where a
TypeError carries no code property, so the code falls back to UNKNOWN
and the message is the TypeError text. -/
def checkForDeferredDeepLink (reply : BridgeReply) : Outcome :=
  match reply with
  | .resolve p =>
    match parseResult p true with
    | .ok r => .resolved r
    | .error m => .typedErr (fromNativeError (.str "UNKNOWN") (.str m))
  | .reject e => catchClause e

/-- Facade resolveLink, from src/Dynalinks.ts: forwards the URL and
parses a resolved payload with the deferred flag set to false. -/
def resolveLink (_url : String) (reply : BridgeReply) : Outcome :=
  match reply with
  | .resolve p =>
    match parseResult p false with
    | .ok r => .resolved r
    | .error m => .typedErr (fromNativeError (.str "UNKNOWN") (.str m))
  | .reject e => catchClause e

/-- A whitespace-or-newline character, the set the iOS native module
trims from both ends of the configured API key. -/
def isWsChar (c : Char) : Bool :=
  c = ' ' || c = '\t' || c = '\n' || c = '\r'

/-- The characters of a string after trimming whitespace and newlines
from both ends. -/
def trimmedChars (s : String) : List Char :=
  ((s.data.dropWhile isWsChar).reverse.dropWhile isWsChar).reverse

/-- The validation the current iOS native module performs at the top of
its configure handler (ios/ExpoDynalinksSdkModule.swift): a missing or
non-string clientAPIKey rejects at once, and a key that is blank after
trimming whitespace and newlines rejects with the INVALID_API_KEY code;
some value is the rejection the JavaScript side observes, none means
the handler proceeds into the external native SDK. -/
def iosConfigureReject (config : JSValue) : Option JSValue :=
  match propOf config "clientAPIKey" with
  | .str s =>
    if trimmedChars s = [] then
      some (.obj [
        ("code", .str "INVALID_API_KEY"),
        ("message", .str "Invalid clientAPIKey in configuration: API key must be a non-empty string")])
    else Option.none
  | _ =>
    some (.obj [
      ("code", .str "INVALID_API_KEY"),
      ("message", .str "Missing clientAPIKey in configuration")])

/-- The eleven stable codes of the error taxonomy: the ten table codes
plus the UNKNOWN catch-all. -/
def taxonomyCodes : List String :=
  ["NOT_CONFIGURED", "INVALID_API_KEY", "SIMULATOR", "NETWORK_ERROR",
   "SERVER_ERROR", "INVALID_RESPONSE", "NO_MATCH",
   "INSTALL_REFERRER_UNAVAILABLE", "INSTALL_REFERRER_TIMEOUT",
   "INVALID_URL", "UNKNOWN"]

/-- Whether an outcome respects the error contract: resolution, or
rejection with a typed error whose code is in the taxonomy; a raw
escape violates it. -/
def outcomeInTaxonomy : Outcome → Bool
  | .resolved _ => true
  | .typedErr e => taxonomyCodes.contains e.code
  | .raw _ => false

/-- A bridge reply whose rejection value, if any, is neither null nor
undefined, so that reading a property off it cannot itself raise. -/
def replySafe : BridgeReply → Bool
  | .reject .null => false
  | .reject .undefined => false
  | _ => true

/-- Whether a switch on this code value would leave the fixed table
entirely, falling to the default branch. -/
def matchesTableCode (code : JSValue) : Bool :=
  isStrEq code "NOT_CONFIGURED" || isStrEq code "INVALID_API_KEY" ||
  isStrEq code "SIMULATOR" || isStrEq code "NETWORK_ERROR" ||
  isStrEq code "SERVER_ERROR" || isStrEq code "INVALID_RESPONSE" ||
  isStrEq code "NO_MATCH" || isStrEq code "INSTALL_REFERRER_UNAVAILABLE" ||
  isStrEq code "INSTALL_REFERRER_TIMEOUT" || isStrEq code "INVALID_URL" ||
  isStrEq code "INVALID_INTENT"

/-- The code of the typed error an outcome rejects with, if any. -/
def outcomeErrCode : Outcome → Option String
  | .typedErr e => some e.code
  | _ => Option.none

/-- Whether a parse completed without raising. -/
def exceptIsOk : Except String JSValue → Bool
  | .ok _ => true
  | .error _ => false

/-!
Theorems. Each claim theorem is stated over the embedding above; the
helper lemma establishes that the error normalizer only ever emits
codes of the fixed taxonomy.
-/

/-- Every error the normalizer produces carries one of the eleven
stable taxonomy codes, whatever code and message the native layer
supplied. -/
theorem fromNativeError_code_mem (code message : JSValue) :
    taxonomyCodes.contains (fromNativeError code message).code = true := by
  unfold fromNativeError
  by_cases h1 : isStrEq code "NOT_CONFIGURED" = true
  · rw [if_pos h1]; rfl
  rw [if_neg h1]
  by_cases h2 : isStrEq code "INVALID_API_KEY" = true
  · rw [if_pos h2]; rfl
  rw [if_neg h2]
  by_cases h3 : isStrEq code "SIMULATOR" = true
  · rw [if_pos h3]; rfl
  rw [if_neg h3]
  by_cases h4 : isStrEq code "NETWORK_ERROR" = true
  · rw [if_pos h4]; rfl
  rw [if_neg h4]
  by_cases h5 : isStrEq code "SERVER_ERROR" = true
  · rw [if_pos h5]; rfl
  rw [if_neg h5]
  by_cases h6 : isStrEq code "INVALID_RESPONSE" = true
  · rw [if_pos h6]; rfl
  rw [if_neg h6]
  by_cases h7 : isStrEq code "NO_MATCH" = true
  · rw [if_pos h7]; rfl
  rw [if_neg h7]
  by_cases h8 : isStrEq code "INSTALL_REFERRER_UNAVAILABLE" = true
  · rw [if_pos h8]; rfl
  rw [if_neg h8]
  by_cases h9 : isStrEq code "INSTALL_REFERRER_TIMEOUT" = true
  · rw [if_pos h9]; rfl
  rw [if_neg h9]
  by_cases h10 : isStrEq code "INVALID_URL" = true
  · rw [if_pos h10]; rfl
  rw [if_neg h10]
  by_cases h11 : isStrEq code "INVALID_INTENT" = true
  · rw [if_pos h11]; rfl
  rw [if_neg h11]
  rfl

/-- Claim C1, counterexample: the claim quantifies over every rejection
value, but when the native bridge rejects with null or undefined, the
catch clause reads a property off that value and itself raises a raw
TypeError, which escapes the layer unconverted; so the contract as
stated fails at these inputs. -/
theorem claim_C1_counterexample :
    checkForDeferredDeepLink (.reject .null) =
      .raw "TypeError: Cannot read properties of null (reading code)" ∧
    outcomeInTaxonomy (checkForDeferredDeepLink (.reject .null)) = false ∧
    outcomeInTaxonomy (configure { clientAPIKey := "k" } (.reject .null)) = false ∧
    outcomeInTaxonomy (resolveLink "https://x.dynalinks.app/p" (.reject .undefined)) = false :=
  ⟨rfl, rfl, rfl, rfl⟩

/-- Claim C1, amended: for every configuration, URL and bridge
behaviour whose rejection value, if any, is neither null nor undefined,
each of the three facade operations either resolves or rejects with
exactly one typed DynalinksError whose code lies in the fixed taxonomy;
no raw error escapes. -/
theorem claim_C1_amended_error_contract (config : DynalinksConfig) (url : String)
    (reply : BridgeReply) (h : replySafe reply = true) :
    outcomeInTaxonomy (configure config reply) = true ∧
    outcomeInTaxonomy (checkForDeferredDeepLink reply) = true ∧
    outcomeInTaxonomy (resolveLink url reply) = true := by
  rcases reply with p | e
  · refine ⟨rfl, ?_, ?_⟩ <;> rcases p <;> rfl
  · rcases e with _ | _ | b | n | s | fields
    · simp [replySafe] at h
    · simp [replySafe] at h
    all_goals refine ⟨?_, ?_, ?_⟩ <;>
      { simp only [configure, checkForDeferredDeepLink, resolveLink, catchClause,
          outcomeInTaxonomy]
        exact fromNativeError_code_mem _ _ }

/-- Claim C1, witness: the amended contract instantiated at a concrete
rejection carrying the NO_MATCH code. -/
theorem claim_C1_witness :
    replySafe (.reject (.obj [("code", .str "NO_MATCH"),
      ("message", .str "No matching link found")])) = true ∧
    outcomeInTaxonomy (configure { clientAPIKey := "k" }
      (.reject (.obj [("code", .str "NO_MATCH"),
        ("message", .str "No matching link found")]))) = true :=
  ⟨by decide,
   (claim_C1_amended_error_contract { clientAPIKey := "k" } "https://x.dynalinks.app/p"
      (.reject (.obj [("code", .str "NO_MATCH"), ("message", .str "No matching link found")]))
      (by decide)).1⟩

/-- Claim C2: for every native code of the fixed table and every
message string, the normalizer returns the typed error whose code field
is that same stable string, the supplied message is used verbatim by
the variants that accept a dynamic message, and INVALID_INTENT is a
synonym producing the INVALID_URL variant. -/
theorem claim_C2_error_table (m : String) :
    (fromNativeError (.str "NOT_CONFIGURED") (.str m)).code = "NOT_CONFIGURED" ∧
    (fromNativeError (.str "INVALID_API_KEY") (.str m)).code = "INVALID_API_KEY" ∧
    (fromNativeError (.str "SIMULATOR") (.str m)).code = "SIMULATOR" ∧
    (fromNativeError (.str "NETWORK_ERROR") (.str m)).code = "NETWORK_ERROR" ∧
    (fromNativeError (.str "SERVER_ERROR") (.str m)).code = "SERVER_ERROR" ∧
    (fromNativeError (.str "INVALID_RESPONSE") (.str m)).code = "INVALID_RESPONSE" ∧
    (fromNativeError (.str "NO_MATCH") (.str m)).code = "NO_MATCH" ∧
    (fromNativeError (.str "INSTALL_REFERRER_UNAVAILABLE") (.str m)).code =
      "INSTALL_REFERRER_UNAVAILABLE" ∧
    (fromNativeError (.str "INSTALL_REFERRER_TIMEOUT") (.str m)).code =
      "INSTALL_REFERRER_TIMEOUT" ∧
    (fromNativeError (.str "INVALID_URL") (.str m)).code = "INVALID_URL" ∧
    (fromNativeError (.str "INVALID_API_KEY") (.str m)).message = m ∧
    (fromNativeError (.str "NETWORK_ERROR") (.str m)).message = m ∧
    (fromNativeError (.str "SERVER_ERROR") (.str m)).message = m ∧
    (fromNativeError (.str "INVALID_URL") (.str m)).message = m ∧
    fromNativeError (.str "INVALID_INTENT") (.str m) = InvalidUrlError (.str m) ∧
    (fromNativeError (.str "INVALID_INTENT") (.str m)).code = "INVALID_URL" :=
  ⟨rfl, rfl, rfl, rfl, rfl, rfl, rfl, rfl, rfl, rfl, rfl, rfl, rfl, rfl, rfl, rfl⟩

/-- Claim C3, counterexample: calling configure with an empty
clientAPIKey does not reject before the native call: the facade
performs no local validation, so it still issues its one native call,
and with a bridge that accepts, the operation even resolves. -/
theorem claim_C3_counterexample :
    configure { clientAPIKey := "" } (.resolve .undefined) = .resolved .undefined ∧
    configureNativeCalls { clientAPIKey := "" } ≠ [] :=
  ⟨rfl, by simp [configureNativeCalls]⟩

/-- Claim C3, amended: configure with an empty clientAPIKey does invoke
the native bridge; the blank-key validation lives in the native module,
which rejects with the INVALID_API_KEY code, and the facade converts
that rejection into the InvalidApiKeyError variant, so the caller still
observes an INVALID_API_KEY typed rejection. -/
theorem claim_C3_amended_native_validation :
    configureNativeCalls { clientAPIKey := "" } =
      [("configure", configureArgument { clientAPIKey := "" })] ∧
    iosConfigureReject (configureArgument { clientAPIKey := "" }) =
      some (.obj [("code", .str "INVALID_API_KEY"),
        ("message", .str "Invalid clientAPIKey in configuration: API key must be a non-empty string")]) ∧
    configure { clientAPIKey := "" }
      (.reject (.obj [("code", .str "INVALID_API_KEY"),
        ("message", .str "Invalid clientAPIKey in configuration: API key must be a non-empty string")])) =
      .typedErr (InvalidApiKeyError
        (.str "Invalid clientAPIKey in configuration: API key must be a non-empty string")) ∧
    (InvalidApiKeyError
      (.str "Invalid clientAPIKey in configuration: API key must be a non-empty string")).code =
      "INVALID_API_KEY" :=
  ⟨rfl, rfl, rfl, rfl⟩

/-- Claim C4, counterexample: the forwarded payload is not missing the
baseURL key; the facade always writes the key, binding it to undefined
when the caller supplied none. -/
theorem claim_C4_counterexample :
    hasKey (configureArgument { clientAPIKey := "k" }) "baseURL" = true :=
  rfl

/-- Claim C4, amended: for every configuration with only a
clientAPIKey, the forwarded payload carries logLevel equal to error and
allowSimulator equal to false, and the baseURL key is present but bound
to undefined, so reading it yields undefined and the native layer falls
back to its own default. -/
theorem claim_C4_amended_payload_defaults (k : String) :
    configureArgument { clientAPIKey := k } =
      .obj [("clientAPIKey", .str k), ("baseURL", .undefined),
        ("logLevel", .str "error"), ("allowSimulator", .bool false)] ∧
    propOf (configureArgument { clientAPIKey := k }) "logLevel" = .str "error" ∧
    propOf (configureArgument { clientAPIKey := k }) "allowSimulator" = .bool false ∧
    propOf (configureArgument { clientAPIKey := k }) "baseURL" = .undefined ∧
    hasKey (configureArgument { clientAPIKey := k }) "baseURL" = true :=
  ⟨rfl, rfl, rfl, rfl, rfl⟩

/-- Claim C5: whenever the native link sub-object is present, the
result normalizer rebuilds the link by the fixed one-to-one snake-case
to camel-case key mapping, every native field absent reading back as
undefined on the result, never null, empty or zero; in particular the
two concrete payloads of the claim normalize exactly as stated. -/
theorem claim_C5_link_mapping :
    (∀ (outer lf : List (String × JSValue)) (d : Bool),
      jsLookup outer "link" = .obj lf →
      parseResult (.obj outer) d = .ok (.obj [
        ("matched", jsOr (jsLookup outer "matched") (.bool false)),
        ("confidence", jsLookup outer "confidence"),
        ("matchScore", jsLookup outer "match_score"),
        ("link", .obj [
          ("id", jsLookup lf "id"), ("name", jsLookup lf "name"),
          ("path", jsLookup lf "path"),
          ("shortenedPath", jsLookup lf "shortened_path"),
          ("url", jsLookup lf "url"), ("fullUrl", jsLookup lf "full_url"),
          ("deepLinkValue", jsLookup lf "deep_link_value"),
          ("iosFallbackUrl", jsLookup lf "ios_fallback_url"),
          ("androidFallbackUrl", jsLookup lf "android_fallback_url"),
          ("enableForcedRedirect", jsLookup lf "enable_forced_redirect"),
          ("socialTitle", jsLookup lf "social_title"),
          ("socialDescription", jsLookup lf "social_description"),
          ("socialImageUrl", jsLookup lf "social_image_url"),
          ("clicks", jsLookup lf "clicks")]),
        ("isDeferred", .bool d)])) ∧
    parseResult (.obj [("matched", .bool true),
        ("link", .obj [("id", .str "abc"), ("deep_link_value", .str "product/42")])]) false =
      .ok (.obj [("matched", .bool true), ("confidence", .undefined), ("matchScore", .undefined),
        ("link", .obj [("id", .str "abc"), ("name", .undefined), ("path", .undefined),
          ("shortenedPath", .undefined), ("url", .undefined), ("fullUrl", .undefined),
          ("deepLinkValue", .str "product/42"), ("iosFallbackUrl", .undefined),
          ("androidFallbackUrl", .undefined), ("enableForcedRedirect", .undefined),
          ("socialTitle", .undefined), ("socialDescription", .undefined),
          ("socialImageUrl", .undefined), ("clicks", .undefined)]),
        ("isDeferred", .bool false)]) ∧
    parseResult (.obj [("matched", .bool true), ("link", .obj [("id", .str "abc")])]) true =
      .ok (.obj [("matched", .bool true), ("confidence", .undefined), ("matchScore", .undefined),
        ("link", .obj [("id", .str "abc"), ("name", .undefined), ("path", .undefined),
          ("shortenedPath", .undefined), ("url", .undefined), ("fullUrl", .undefined),
          ("deepLinkValue", .undefined), ("iosFallbackUrl", .undefined),
          ("androidFallbackUrl", .undefined), ("enableForcedRedirect", .undefined),
          ("socialTitle", .undefined), ("socialDescription", .undefined),
          ("socialImageUrl", .undefined), ("clicks", .undefined)]),
        ("isDeferred", .bool true)]) := by
  refine ⟨?_, rfl, rfl⟩
  intro outer lf d h
  simp only [parseResult, propOf, h, truthy, if_true]

/-- Claim C5, witness: the general mapping applied at a native payload
whose link object holds only a name field. -/
theorem claim_C5_witness :
    parseResult (.obj [("link", .obj [("name", .str "campaign")])]) true =
      .ok (.obj [
        ("matched", jsOr (jsLookup [("link", .obj [("name", .str "campaign")])] "matched")
          (.bool false)),
        ("confidence", jsLookup [("link", .obj [("name", .str "campaign")])] "confidence"),
        ("matchScore", jsLookup [("link", .obj [("name", .str "campaign")])] "match_score"),
        ("link", .obj [
          ("id", jsLookup [("name", JSValue.str "campaign")] "id"),
          ("name", jsLookup [("name", JSValue.str "campaign")] "name"),
          ("path", jsLookup [("name", JSValue.str "campaign")] "path"),
          ("shortenedPath", jsLookup [("name", JSValue.str "campaign")] "shortened_path"),
          ("url", jsLookup [("name", JSValue.str "campaign")] "url"),
          ("fullUrl", jsLookup [("name", JSValue.str "campaign")] "full_url"),
          ("deepLinkValue", jsLookup [("name", JSValue.str "campaign")] "deep_link_value"),
          ("iosFallbackUrl", jsLookup [("name", JSValue.str "campaign")] "ios_fallback_url"),
          ("androidFallbackUrl", jsLookup [("name", JSValue.str "campaign")] "android_fallback_url"),
          ("enableForcedRedirect", jsLookup [("name", JSValue.str "campaign")] "enable_forced_redirect"),
          ("socialTitle", jsLookup [("name", JSValue.str "campaign")] "social_title"),
          ("socialDescription", jsLookup [("name", JSValue.str "campaign")] "social_description"),
          ("socialImageUrl", jsLookup [("name", JSValue.str "campaign")] "social_image_url"),
          ("clicks", jsLookup [("name", JSValue.str "campaign")] "clicks")]),
        ("isDeferred", .bool true)]) :=
  claim_C5_link_mapping.1 [("link", .obj [("name", .str "campaign")])]
    [("name", .str "campaign")] true rfl

/-- Claim C6: for every resolved native payload, including payloads
carrying an is_deferred or isDeferred field of their own, the deferred
flag of the returned result is the caller-context flag: true through
checkForDeferredDeepLink and false through resolveLink. -/
theorem claim_C6_isDeferred_from_caller (p : JSValue) (url : String) (r : JSValue) :
    (checkForDeferredDeepLink (.resolve p) = .resolved r →
      propOf r "isDeferred" = .bool true) ∧
    (resolveLink url (.resolve p) = .resolved r →
      propOf r "isDeferred" = .bool false) := by
  constructor <;> intro h <;> rcases p <;>
    simp only [checkForDeferredDeepLink, resolveLink, parseResult] at h <;>
    (cases h <;> rfl)

/-- Claim C6, witness: both directions instantiated at a payload that
itself carries contrary deferred flags. -/
theorem claim_C6_witness :
    propOf (.obj [("matched", .bool false), ("confidence", .undefined), ("matchScore", .undefined),
      ("link", .undefined), ("isDeferred", .bool true)]) "isDeferred" = .bool true ∧
    propOf (.obj [("matched", .bool false), ("confidence", .undefined), ("matchScore", .undefined),
      ("link", .undefined), ("isDeferred", .bool false)]) "isDeferred" = .bool false :=
  ⟨(claim_C6_isDeferred_from_caller
      (.obj [("is_deferred", .bool false), ("isDeferred", .bool false)]) "https://x.dynalinks.app/p"
      (.obj [("matched", .bool false), ("confidence", .undefined), ("matchScore", .undefined),
        ("link", .undefined), ("isDeferred", .bool true)])).1 rfl,
   (claim_C6_isDeferred_from_caller
      (.obj [("is_deferred", .bool false), ("isDeferred", .bool false)]) "https://x.dynalinks.app/p"
      (.obj [("matched", .bool false), ("confidence", .undefined), ("matchScore", .undefined),
        ("link", .undefined), ("isDeferred", .bool false)])).2 rfl⟩

/-- Claim C7: every code outside the fixed table, the absent code
included, maps to the UNKNOWN variant carrying the original message,
with the fixed placeholder substituted when the message is absent or
empty; and the facade substitutes UNKNOWN for the code whenever the
caught rejection carries no code property. -/
theorem claim_C7_unknown_fallback :
    (∀ code m : JSValue, matchesTableCode code = false →
      (fromNativeError code m).code = "UNKNOWN" ∧
      (∀ s : String, s ≠ "" → m = .str s → (fromNativeError code m).message = s) ∧
      ((m = .undefined ∨ m = .str "") →
        (fromNativeError code m).message = "Unknown error occurred")) ∧
    (∀ (config : DynalinksConfig) (url : String) (fields : List (String × JSValue)),
      jsLookup fields "code" = .undefined →
      outcomeErrCode (configure config (.reject (.obj fields))) = some "UNKNOWN" ∧
      outcomeErrCode (checkForDeferredDeepLink (.reject (.obj fields))) = some "UNKNOWN" ∧
      outcomeErrCode (resolveLink url (.reject (.obj fields))) = some "UNKNOWN") := by
  constructor
  · intro code m h
    simp only [matchesTableCode, Bool.or_eq_false_iff] at h
    obtain ⟨⟨⟨⟨⟨⟨⟨⟨⟨⟨h1, h2⟩, h3⟩, h4⟩, h5⟩, h6⟩, h7⟩, h8⟩, h9⟩, h10⟩, h11⟩ := h
    unfold fromNativeError
    rw [if_neg (by simp [h1]), if_neg (by simp [h2]), if_neg (by simp [h3]),
      if_neg (by simp [h4]), if_neg (by simp [h5]), if_neg (by simp [h6]),
      if_neg (by simp [h7]), if_neg (by simp [h8]), if_neg (by simp [h9]),
      if_neg (by simp [h10]), if_neg (by simp [h11])]
    refine ⟨rfl, ?_, ?_⟩
    · rintro s hs rfl
      simp [truthy, jsErrorMessage, hs]
    · rintro (rfl | rfl) <;> rfl
  · intro config url fields h
    refine ⟨?_, ?_, ?_⟩ <;>
      simp only [configure, checkForDeferredDeepLink, resolveLink, catchClause,
        propOf, h, jsOr, truthy, if_false, outcomeErrCode] <;> rfl

/-- Claim C7, witness: an unrecognized code with a non-empty message,
and a rejection object without any code property. -/
theorem claim_C7_witness :
    matchesTableCode (.str "SOME_OTHER_CODE") = false ∧
    (fromNativeError (.str "SOME_OTHER_CODE") (.str "boom")).code = "UNKNOWN" ∧
    (fromNativeError (.str "SOME_OTHER_CODE") (.str "boom")).message = "boom" ∧
    jsLookup [("message", JSValue.str "boom")] "code" = .undefined ∧
    outcomeErrCode (checkForDeferredDeepLink
      (.reject (.obj [("message", .str "boom")]))) = some "UNKNOWN" :=
  ⟨by decide,
   (claim_C7_unknown_fallback.1 (.str "SOME_OTHER_CODE") (.str "boom") (by decide)).1,
   (claim_C7_unknown_fallback.1 (.str "SOME_OTHER_CODE") (.str "boom") (by decide)).2.1
     "boom" (by decide) rfl,
   rfl,
   (claim_C7_unknown_fallback.2 { clientAPIKey := "k" } "https://x.dynalinks.app/p"
      [("message", .str "boom")] rfl).2.1⟩

/-- Claim C8: normalizing the payload holding only matched false with
the deferred flag true yields exactly the result whose confidence,
matchScore and link all read as undefined; and the normalizer completes
without raising on every native result object that carries no link,
confidence or match_score key. -/
theorem claim_C8_absent_fields :
    parseResult (.obj [("matched", .bool false)]) true =
      .ok (.obj [("matched", .bool false), ("confidence", .undefined), ("matchScore", .undefined),
        ("link", .undefined), ("isDeferred", .bool true)]) ∧
    (∀ (fields : List (String × JSValue)) (d : Bool),
      hasKey (.obj fields) "link" = false →
      hasKey (.obj fields) "confidence" = false →
      hasKey (.obj fields) "match_score" = false →
      exceptIsOk (parseResult (.obj fields) d) = true) :=
  ⟨rfl, fun _ _ _ _ _ => rfl⟩

/-- Claim C8, witness: the no-raise property at a payload holding only
a matched flag. -/
theorem claim_C8_witness :
    hasKey (.obj [("matched", JSValue.bool true)]) "link" = false ∧
    exceptIsOk (parseResult (.obj [("matched", .bool true)]) false) = true :=
  ⟨by decide,
   claim_C8_absent_fields.2 [("matched", .bool true)] false (by decide) (by decide) (by decide)⟩

/-- Claim C9: for every message the native layer supplies, normalizing
the NOT_CONFIGURED code returns the NotConfiguredError variant, whose
message is the one fixed guidance string, the supplied message ignored
entirely. -/
theorem claim_C9_not_configured_message (m : JSValue) :
    fromNativeError (.str "NOT_CONFIGURED") m = NotConfiguredError ∧
    NotConfiguredError.message =
      "Dynalinks SDK has not been configured. Call Dynalinks.configure() first." ∧
    NotConfiguredError.code = "NOT_CONFIGURED" :=
  ⟨rfl, rfl, rfl⟩

/-- Claim C10: for every input configuration, the clientAPIKey value of
the forwarded payload is the very string the caller supplied, with no
trimming, normalization or substitution, and configure performs exactly
that single forwarding call. -/
theorem claim_C10_api_key_verbatim (config : DynalinksConfig) :
    propOf (configureArgument config) "clientAPIKey" = .str config.clientAPIKey ∧
    configureNativeCalls config = [("configure", configureArgument config)] :=
  ⟨rfl, rfl⟩
